import Mathlib

/-!
Shallow embedding of the multiplayer world-viewer client (`client.js`, second
protocol variant: the `join_game` / `players_moved` wire protocol).

Conventions of the embedding:
* JS numbers are modelled as `ℚ` for protocol/state values and as `ℝ` for the
  movement integrator (which divides by `Math.hypot`, i.e. a square root).
* A JS value that may be `undefined` is an `Option`; JS string falsiness
  (`""` is falsy) is modelled explicitly where the source relies on it.
* Images are opaque records carrying a URL and their intrinsic dimensions;
  `loadImage` is the identity on these records.
* The canvas is modelled by a `DrawOp` describing the draw call that
  `drawPlayerSprite` issues (including the mirroring transform), from which
  the covered screen interval is computed.
-/

namespace Client

/-- `clamp` from client.js: returns `lo` when the interval is inverted
(map smaller than viewport), otherwise clamps `value` into `[lo, hi]`. -/
def clamp {α : Type} [LinearOrder α] (value lo hi : α) : α :=
  if lo > hi then lo else max lo (min hi value)

/-- JS `v || d` for strings: the empty string is falsy. -/
def jsOrStr (v : Option String) (d : String) : String :=
  match v with
  | some s => if s = "" then d else s
  | none => d

/-- JS `v | 0` applied to a possibly-undefined number: `undefined | 0 = 0`,
and a fractional number is truncated toward zero (`Int` division is
truncating division). -/
def jsBitOrZero (v : Option ℚ) : ℤ :=
  match v with
  | some q => q.num / (q.den : ℤ)
  | none => 0

/-- JS `w || 64` for a dimension: `0` is falsy and falls through to `64`. -/
def jsDim (q : ℚ) : ℚ :=
  if q = 0 then 64 else q

/-- A loaded image: URL plus intrinsic pixel dimensions. -/
structure Img where
  url : String
  w : ℚ
  h : ℚ
deriving DecidableEq

/-- An avatar-atlas entry as built by `loadAvatarAtlas`:
`avatarAtlas.set(name, { frames: { north, south, east } })` — the object
stores exactly the three directional frame sequences, never a `west` one. -/
structure AtlasEntry where
  north : List Img
  south : List Img
  east : List Img
deriving DecidableEq

/-- `atlas.frames[dir] || []`: property access on the frames object; any key
other than the three stored directions yields `undefined`, hence `[]`. -/
def framesFor (a : AtlasEntry) (dir : String) : List Img :=
  if dir = "north" then a.north
  else if dir = "south" then a.south
  else if dir = "east" then a.east
  else []

/-- `updateCamera` from client.js: desired offset centers the viewport on the
local position; each axis is clamped via `clamp(desired, 0, max(0, world - view))`. -/
def updateCamera (selfX selfY : ℚ) (viewW viewH worldW worldH : ℤ) : ℤ × ℤ :=
  let desiredX := Rat.floor (selfX - (viewW : ℚ) / 2)
  let desiredY := Rat.floor (selfY - (viewH : ℚ) / 2)
  let maxX := max 0 (worldW - viewW)
  let maxY := max 0 (worldH - viewH)
  (clamp desiredX 0 maxX, clamp desiredY 0 maxY)

/-- X component of the direction built from the held arrow keys
(`dx -= 1` for ArrowLeft, `dx += 1` for ArrowRight). -/
def dirX (left right : Bool) : ℝ :=
  (if left then -1 else 0) + (if right then 1 else 0)

/-- Y component of the direction built from the held arrow keys. -/
def dirY (up down : Bool) : ℝ :=
  (if up then -1 else 0) + (if down then 1 else 0)

/-- `moveSpeed` selection: a finite positive `?speed=` override, else 200
world-pixels per second. `none` models an absent or non-finite parameter. -/
noncomputable def moveSpeedOf (speedParam : Option ℝ) : ℝ :=
  match speedParam with
  | some v => if v > 0 then v else 200
  | none => 200

open scoped Classical in
/-- `integrateMovement` from client.js, for one tick with `elapsedMs`
milliseconds since the previous tick: `dt` is clamped to at most 50 ms,
the held-key direction is normalized by `Math.hypot(dx, dy) || 1`, scaled
by `speed * dt`, added to the position, and the result is clamped into
`[0, max(0, world)]` on each axis.  Returns the new `(x, y)`. -/
noncomputable def integrateMovement (x y : ℝ) (left right up down : Bool)
    (speed elapsedMs worldW worldH : ℝ) : ℝ × ℝ :=
  let dt := min 0.05 (max 0 (elapsedMs / 1000))
  let dx := dirX left right
  let dy := dirY up down
  if dx = 0 ∧ dy = 0 then (x, y)
  else
    let hyp := Real.sqrt (dx ^ 2 + dy ^ 2)
    let len := if hyp = 0 then 1 else hyp
    let dist := speed * dt
    (clamp (x + dx / len * dist) 0 (max 0 worldW),
     clamp (y + dy / len * dist) 0 (max 0 worldH))

/-- A message sent out over the socket by the input handlers. -/
inductive OutMsg
  | move (direction : String)
  | stop
deriving DecidableEq

/-- The input-side state: the set of currently pressed arrow keys and
whether the socket is open (`socket && socket.readyState === 1`). -/
structure InputState where
  pressedKeys : Finset String
  socketOpen : Bool
deriving DecidableEq

/-- The four keys the key handlers react to. -/
def isArrowKey (k : String) : Bool :=
  k == "ArrowUp" || k == "ArrowDown" || k == "ArrowLeft" || k == "ArrowRight"

/-- `directionFromKey` from client.js. -/
def directionFromKey (k : String) : ℤ × ℤ :=
  if k = "ArrowUp" then (0, -1)
  else if k = "ArrowDown" then (0, 1)
  else if k = "ArrowLeft" then (-1, 0)
  else if k = "ArrowRight" then (1, 0)
  else (0, 0)

/-- `sendMoveCommand` from client.js: drops the message when the socket is
not open or the delta is not one of the four unit directions. -/
def sendMoveCommand (sockOpen : Bool) (dx dy : ℤ) : List OutMsg :=
  if !sockOpen then []
  else
    let direction : Option String :=
      if dx = 0 ∧ dy = -1 then some "up"
      else if dx = 0 ∧ dy = 1 then some "down"
      else if dx = -1 ∧ dy = 0 then some "left"
      else if dx = 1 ∧ dy = 0 then some "right"
      else none
    match direction with
    | some d => [OutMsg.move d]
    | none => []

/-- `handleKeyDown` from client.js: on an arrow key it records the key as
pressed and sends one move command per keydown event (including repeats).
Returns the new input state and the emitted messages. -/
def handleKeyDown (st : InputState) (key : String) : InputState × List OutMsg :=
  if isArrowKey key then
    ({ st with pressedKeys := insert key st.pressedKeys },
     sendMoveCommand st.socketOpen (directionFromKey key).1 (directionFromKey key).2)
  else (st, [])

/-- `handleKeyUp` from client.js: on an arrow key it removes the key from the
pressed set and sends a stop message when the resulting set is empty. -/
def handleKeyUp (st : InputState) (key : String) : InputState × List OutMsg :=
  if isArrowKey key then
    let st' : InputState := { st with pressedKeys := st.pressedKeys.erase key }
    if st'.pressedKeys = ∅ then
      (st', if st.socketOpen then [OutMsg.stop] else [])
    else (st', [])
  else (st, [])

/-- A remote entity as stored in the `players` map.  `label` records the
display name the entity's pre-rendered label canvas was drawn from
(`none` until `prepareLabelForPlayer` first runs), and `labelGen` counts
how many times the label has been (re)rendered, so that "the label was
regenerated" is observable in the model.  Fields that `ensureOtherPlayer`
does not initialize (`avatarName`, `facing`, `animationFrame`, `isMoving`)
are `Option`s, `none` meaning the JS property is still `undefined`. -/
structure OtherPlayer where
  name : String
  x : ℚ
  y : ℚ
  avatarName : Option String
  avatarImage : Option Img
  avatarWidth : ℚ
  avatarHeight : ℚ
  facing : Option String
  animationFrame : Option ℚ
  isMoving : Option Bool
  label : Option String
  labelGen : Nat
deriving DecidableEq

/-- The entity `ensureOtherPlayer` creates for an unseen identifier. -/
def defaultOtherPlayer : OtherPlayer :=
  { name := "Player", x := 0, y := 0, avatarName := none, avatarImage := none,
    avatarWidth := 48, avatarHeight := 48, facing := none,
    animationFrame := none, isMoving := none, label := none, labelGen := 0 }

/-- The local entity (`selfPlayer`). -/
structure SelfPlayer where
  id : Option String
  name : String
  x : ℚ
  y : ℚ
  avatarName : Option String
  facing : String
  animationFrame : ℚ
  isMoving : Bool
  avatarImage : Option Img
  avatarWidth : ℚ
  avatarHeight : ℚ
deriving DecidableEq

/-- `selfPlayer`'s initial value in client.js. -/
def initialSelfPlayer : SelfPlayer :=
  { id := none, name := "Lynn", x := 0, y := 0, avatarName := none,
    facing := "south", animationFrame := 0, isMoving := false,
    avatarImage := none, avatarWidth := 64, avatarHeight := 64 }

/-- The `players` map, keyed by player identifier. -/
abbrev Roster := String → Option OtherPlayer

/-- `players.set(k, v)`. -/
def rosterSet (r : Roster) (k : String) (v : OtherPlayer) : Roster :=
  fun k' => if k' = k then some v else r k'

/-- `players.delete(k)`. -/
def rosterDel (r : Roster) (k : String) : Roster :=
  fun k' => if k' = k then none else r k'

/-- The empty roster. -/
def emptyRoster : Roster := fun _ => none

/-- `ensureOtherPlayer` from client.js, read side: the entity under `k`,
or the default entity that the function would insert for an unseen id. -/
def ensureOtherPlayer (r : Roster) (k : String) : OtherPlayer :=
  (r k).getD defaultOtherPlayer

/-- `prepareLabelForPlayer`: re-renders the entity's label canvas from its
current display name. -/
def prepareLabelForPlayer (op : OtherPlayer) : OtherPlayer :=
  { op with label := some op.name, labelGen := op.labelGen + 1 }

/-- The avatar descriptor field of a wire payload: either a plain string or
an object with an optional `name` property. -/
inductive JSAvatar
  | str (s : String)
  | obj (name : Option String)
deriving DecidableEq

/-- JS truthiness of an avatar descriptor (`if (p.avatar)`). -/
def jsTruthyAvatar (a : JSAvatar) : Bool :=
  match a with
  | .str s => s != ""
  | .obj _ => true

/-- A per-player wire payload (an entry of `msg.players`, or `msg.player`).
Each field is `none` when the JS property is absent or of the wrong type
for the handler's `typeof` check. -/
structure PlayerPayload where
  playerId : Option String
  x : Option ℚ
  y : Option ℚ
  username : Option String
  avatar : Option JSAvatar
  facing : Option String
  animationFrame : Option ℚ
  isMoving : Option Bool
deriving DecidableEq

/-- `setPlayerAvatarFromDescriptor`: a string descriptor or an object with a
string `name` sets `avatarName`; anything else leaves it unchanged. -/
def setPlayerAvatarFromDescriptor (op : OtherPlayer) (a : JSAvatar) : OtherPlayer :=
  match a with
  | .str s => { op with avatarName := some s }
  | .obj (some n) => { op with avatarName := some n }
  | .obj none => op

/-- The frame lists of an avatar definition on the wire
(`def.frames.north` etc., each possibly absent). -/
structure AvatarFrames where
  north : Option (List Img)
  south : Option (List Img)
  east : Option (List Img)
deriving DecidableEq

/-- An avatar definition on the wire (`{ name, frames }`). -/
structure AvatarDef where
  name : Option String
  frames : Option AvatarFrames
deriving DecidableEq

/-- `loadAvatarAtlas`: for each `(name, def)` entry with a `frames` object,
store `{ frames: { north, south, east } }` (absent direction lists default
to `[]`; `loadImage` is the identity on already-modelled images). -/
def loadAvatarAtlas (atlas : String → Option AtlasEntry)
    (avs : List (String × Option AvatarDef)) : String → Option AtlasEntry :=
  avs.foldl
    (fun acc e =>
      match e.2 with
      | none => acc
      | some d =>
        match d.frames with
        | none => acc
        | some fr =>
          fun k => if k = e.1 then
              some { north := fr.north.getD [], south := fr.south.getD [],
                     east := fr.east.getD [] }
            else acc k)
    atlas

/-- An inbound message after `JSON.parse`, duck-typed as in the source:
every handler-relevant property is optional. -/
structure RawMsg where
  action : Option String
  success : Option Bool
  error : Option String
  playerId : Option String
  avatars : Option (List (String × Option AvatarDef))
  players : Option (List (String × Option PlayerPayload))
  player : Option PlayerPayload
  avatar : Option AvatarDef

/-- The whole session state the message handler can touch. -/
structure ClientState where
  selfPlayer : SelfPlayer
  players : Roster
  avatarAtlas : String → Option AtlasEntry
  camera : ℤ × ℤ
  channelOpen : Bool

/-- Modelled from the spec: `upsertPlayerFromRoster` is called by the
`join_game` and `player_joined` handlers but its definition is not among the
provided source files (the sources define the identically-shaped, unused
`upsertOtherPlayerFromServer`, whose body this follows).  Per the spec it
creates-or-updates the single remote entity named by the payload's
identifier, applies only the fields present in the payload, and re-renders
the entity's label; a payload with no identifier cannot name an entity and
is discarded. -/
def upsertPlayerFromRoster (r : Roster) (p : PlayerPayload) : Roster :=
  match p.playerId with
  | none => r
  | some k =>
    let op := ensureOtherPlayer r k
    let op := { op with x := p.x.getD op.x, y := p.y.getD op.y }
    let op := match p.username with
      | some nm => { op with name := nm }
      | none => op
    let op := match p.avatar with
      | some a => if jsTruthyAvatar a then setPlayerAvatarFromDescriptor op a else op
      | none => op
    let op := match p.facing with
      | some f => { op with facing := some f }
      | none => op
    let op := match p.animationFrame with
      | some af => { op with animationFrame := some af }
      | none => op
    let op := match p.isMoving with
      | some mv => { op with isMoving := some mv }
      | none => op
    rosterSet r k (prepareLabelForPlayer op)

/-- The self branch of the `join_game` roster loop (`p.x || 0`,
`p.username || selfPlayer.name`, `p.avatar || null`, `p.facing || 'south'`,
`!!p.isMoving`, `p.animationFrame || 0`).  An object-valued avatar
descriptor is modelled as `none`: the atlas is keyed by strings, so a
non-string `avatarName` can never hit the atlas, exactly like `null`. -/
def applySelfFromRoster (sp : SelfPlayer) (p : PlayerPayload) : SelfPlayer :=
  { sp with
    x := p.x.getD 0
    y := p.y.getD 0
    name := jsOrStr p.username sp.name
    avatarName :=
      match p.avatar with
      | some (.str s) => if s = "" then none else some s
      | _ => none
    facing := jsOrStr p.facing "south"
    isMoving := p.isMoving.getD false
    animationFrame := p.animationFrame.getD 0 }

/-- One iteration of the `join_game` handler's loop over `msg.players`. -/
def joinRosterStep (st : ClientState) (e : String × Option PlayerPayload) : ClientState :=
  match e.2 with
  | none => st
  | some p =>
    if some e.1 = st.selfPlayer.id then
      { st with selfPlayer := applySelfFromRoster st.selfPlayer p }
    else
      { st with players := upsertPlayerFromRoster st.players p }

/-- The atlas-loading step of the `join_game` handler
(`if (msg.avatars && typeof msg.avatars === 'object') await loadAvatarAtlas(...)`). -/
def loadAvatarsStep (s : ClientState) (m : RawMsg) : ClientState :=
  match m.avatars with
  | some avs => { s with avatarAtlas := loadAvatarAtlas s.avatarAtlas avs }
  | none => s

/-- `selfPlayer.id = msg.playerId`. -/
def withSelfId (s : ClientState) (pid : Option String) : ClientState :=
  { s with selfPlayer := { s.selfPlayer with id := pid } }

/-- The `join_game` branch of the message handler: on a failure reply it
only logs; otherwise it loads the avatar atlas, records the local id, and
walks the roster snapshot. -/
def processJoinGame (s : ClientState) (m : RawMsg) : ClientState :=
  if m.success = some false then s
  else
    match m.players with
    | some entries => entries.foldl joinRosterStep (withSelfId (loadAvatarsStep s m) m.playerId)
    | none => withSelfId (loadAvatarsStep s m) m.playerId

/-- The self branch of the `players_moved` handler: only fields present in
the payload are applied. -/
def applyMovedSelf (sp : SelfPlayer) (p : PlayerPayload) : SelfPlayer :=
  { sp with
    x := p.x.getD sp.x
    y := p.y.getD sp.y
    animationFrame := p.animationFrame.getD sp.animationFrame
    facing := p.facing.getD sp.facing
    isMoving := p.isMoving.getD sp.isMoving }

/-- The remote branch of the `players_moved` handler: only fields present in
the payload are applied, and the label is re-rendered exactly when a
present `username` differs from the entity's current name. -/
def applyMovedOther (op : OtherPlayer) (p : PlayerPayload) : OtherPlayer :=
  let op1 := { op with
    x := p.x.getD op.x
    y := p.y.getD op.y
    animationFrame :=
      match p.animationFrame with
      | some af => some af
      | none => op.animationFrame
    facing :=
      match p.facing with
      | some f => some f
      | none => op.facing
    isMoving :=
      match p.isMoving with
      | some mv => some mv
      | none => op.isMoving }
  match p.username with
  | some nm => if nm ≠ op.name then prepareLabelForPlayer { op1 with name := nm } else op1
  | none => op1

/-- One iteration of the `players_moved` handler's loop over `msg.players`. -/
def movedStep (st : ClientState) (e : String × Option PlayerPayload) : ClientState :=
  match e.2 with
  | none => st
  | some p =>
    if some e.1 = st.selfPlayer.id then
      { st with selfPlayer := applyMovedSelf st.selfPlayer p }
    else
      { st with players :=
          rosterSet st.players e.1 (applyMovedOther (ensureOtherPlayer st.players e.1) p) }

/-- The `players_moved` branch of the message handler. -/
def processPlayersMoved (s : ClientState) (m : RawMsg) : ClientState :=
  match m.players with
  | some entries => entries.foldl movedStep s
  | none => s

/-- The `player_joined` branch: register a bundled avatar atlas when the
descriptor has a truthy name and a frames object, then upsert the player. -/
def processPlayerJoined (s : ClientState) (m : RawMsg) : ClientState :=
  let s1 := match m.avatar with
    | some a =>
      match a.name, a.frames with
      | some nm, some _ =>
        if nm ≠ "" then { s with avatarAtlas := loadAvatarAtlas s.avatarAtlas [(nm, some a)] }
        else s
      | _, _ => s
    | none => s
  match m.player with
  | some p => { s1 with players := upsertPlayerFromRoster s1.players p }
  | none => s1

/-- The `player_left` branch: `if (msg.playerId) players.delete(msg.playerId)`. -/
def processPlayerLeft (s : ClientState) (m : RawMsg) : ClientState :=
  match m.playerId with
  | some k => if k ≠ "" then { s with players := rosterDel s.players k } else s
  | none => s

/-- The dispatch of `socket.onmessage` over `msg.action`; any unrecognized
kind (including the logged `success === false` server-error branch) leaves
the state untouched. -/
def processMessage (s : ClientState) (m : RawMsg) : ClientState :=
  if m.action = some "join_game" then processJoinGame s m
  else if m.action = some "player_joined" then processPlayerJoined s m
  else if m.action = some "players_moved" then processPlayersMoved s m
  else if m.action = some "player_left" then processPlayerLeft s m
  else s

/-- The whole `onmessage` callback: non-string data and unparseable JSON
yield no message (`none`) and the handler returns without touching state;
the surrounding try/catch means the callback is total. -/
def handleInbound (s : ClientState) (m : Option RawMsg) : ClientState :=
  match m with
  | none => s
  | some raw => processMessage s raw

/-- The fields `getAvatarSize` and `drawPlayerSprite` read from a player
(both `selfPlayer` and roster entities are passed to them). -/
structure SpriteView where
  avatarName : Option String
  avatarImage : Option Img
  avatarWidth : ℚ
  avatarHeight : ℚ
  facing : Option String
  animationFrame : Option ℚ
deriving DecidableEq

/-- Projection of a roster entity to what the sprite code reads. -/
def OtherPlayer.toView (op : OtherPlayer) : SpriteView :=
  { avatarName := op.avatarName, avatarImage := op.avatarImage,
    avatarWidth := op.avatarWidth, avatarHeight := op.avatarHeight,
    facing := op.facing, animationFrame := op.animationFrame }

/-- Projection of the local entity to what the sprite code reads. -/
def SelfPlayer.toView (sp : SelfPlayer) : SpriteView :=
  { avatarName := sp.avatarName, avatarImage := sp.avatarImage,
    avatarWidth := sp.avatarWidth, avatarHeight := sp.avatarHeight,
    facing := some sp.facing, animationFrame := some sp.animationFrame }

/-- JS truthiness of the `avatarName` property (`!p.avatarName`):
`null`/`undefined` and the empty string are falsy. -/
def truthyName (n : Option String) : Bool :=
  match n with
  | some s => s != ""
  | none => false

/-- `getAvatarSize` from client.js.  For an atlas-backed player the source
evaluates `atlas?.frames?.south || atlas?.frames?.east || atlas?.frames?.north`;
since `loadAvatarAtlas` always stores all three arrays and an array (even an
empty one) is truthy, this is always the `south` list, whose first frame (or
the `|| 64` fallbacks) gives the size. -/
def getAvatarSize (atlas : String → Option AtlasEntry) (p : SpriteView) : ℚ × ℚ :=
  match p.avatarName with
  | some n =>
    if n = "" then (jsDim p.avatarWidth, jsDim p.avatarHeight)
    else
      match atlas n with
      | some a =>
        match a.south.head? with
        | some img => (jsDim img.w, jsDim img.h)
        | none => (64, 64)
      | none => (jsDim p.avatarWidth, jsDim p.avatarHeight)
  | none => (jsDim p.avatarWidth, jsDim p.avatarHeight)

/-- The draw call `drawPlayerSprite` issues.  `image` is the single-image
fallback path.  `frame` records the atlas path: the selected frame, the
mirror flag, the `translate` x used when mirroring, and the raw `drawImage`
destination arguments. -/
inductive DrawOp
  | nothing
  | image (img : Img) (dx dy : ℤ) (w h : ℚ)
  | frame (img : Img) (flip : Bool) (tx dx dy : ℤ) (w h : ℚ)
deriving DecidableEq

/-- `drawPlayerSprite` from client.js, as the draw call it performs for a
player centered at screen coordinates `(centerX, centerY)`. -/
def drawPlayerSprite (atlas : String → Option AtlasEntry) (p : SpriteView)
    (centerX centerY : ℤ) : DrawOp :=
  let size := getAvatarSize atlas p
  let halfW := Rat.floor (size.1 / 2)
  let halfH := Rat.floor (size.2 / 2)
  if truthyName p.avatarName = false ∨ atlas (p.avatarName.getD "") = none then
    match p.avatarImage with
    | some img => .image img (centerX - halfW) (centerY - halfH) size.1 size.2
    | none => .nothing
  else
    match atlas (p.avatarName.getD "") with
    | none => .nothing
    | some a =>
      let dir0 := jsOrStr p.facing "south"
      let flip := dir0 = "west"
      let dir := if dir0 = "west" then "east" else dir0
      let frames := framesFor a dir
      let frameIndex := max 0 (min 2 (jsBitOrZero p.animationFrame))
      match (frames.get? frameIndex.toNat).orElse (fun _ => frames.get? 0) with
      | none => .nothing
      | some f =>
        if flip then .frame f true centerX (-halfW) (centerY - halfH) size.1 size.2
        else .frame f false 0 (centerX - halfW) (centerY - halfH) size.1 size.2

/-- The horizontal screen interval a draw call covers, from the canvas
semantics of the issued calls: without mirroring, `drawImage` at `dx` with
width `w` covers `[dx, dx + w]`; under `translate(tx, 0); scale(-1, 1)` a
source interval `[dx, dx + w]` lands on `[tx - (dx + w), tx - dx]`. -/
def coveredX (d : DrawOp) : Option (ℚ × ℚ) :=
  match d with
  | .nothing => none
  | .image _ dx _ w _ => some ((dx : ℚ), (dx : ℚ) + w)
  | .frame _ flip tx dx _ w _ =>
    if flip then some ((tx : ℚ) - ((dx : ℚ) + w), (tx : ℚ) - (dx : ℚ))
    else some ((dx : ℚ), (dx : ℚ) + w)

/-- The frame index `drawPlayerSprite` computes before indexing. -/
def spriteFrameIndex (p : SpriteView) : ℤ :=
  max 0 (min 2 (jsBitOrZero p.animationFrame))

/-- The facing string the sprite code resolves (west becomes east). -/
def resolvedDir (p : SpriteView) : String :=
  let dir0 := jsOrStr p.facing "south"
  if dir0 = "west" then "east" else dir0

/-- A payload carrying only an `x` coordinate. -/
def xOnlyPayload (v : ℚ) : PlayerPayload :=
  { playerId := none, x := some v, y := none, username := none, avatar := none,
    facing := none, animationFrame := none, isMoving := none }

/-- A `players_moved` message whose `players` object has the single entry
`pid ↦ p`. -/
def movedMsg (pid : String) (p : PlayerPayload) : RawMsg :=
  { action := some "players_moved", success := none, error := none,
    playerId := none, avatars := none, players := some [(pid, some p)],
    player := none, avatar := none }

/-- Concrete roster entity `A` for the snapshot scenario. -/
def c1opA : OtherPlayer := { defaultOtherPlayer with name := "Alice", x := 10 }

/-- Concrete roster entity `B` for the snapshot scenario. -/
def c1opB : OtherPlayer := { defaultOtherPlayer with name := "Bob", x := 20 }

/-- A session state whose roster holds exactly `{A, B}` and whose local
entity has identifier `"me"`. -/
def c1State : ClientState :=
  { selfPlayer := { initialSelfPlayer with id := some "me" },
    players := rosterSet (rosterSet emptyRoster "A" c1opA) "B" c1opB,
    avatarAtlas := fun _ => none, camera := (0, 0), channelOpen := true }

/-- A snapshot entry for `A` only. -/
def c1Payload : PlayerPayload :=
  { playerId := some "A", x := some 11, y := some 12, username := some "Alice",
    avatar := none, facing := none, animationFrame := none, isMoving := none }

/-- A `join_game` acknowledgement whose roster snapshot lists only `{A}`. -/
def c1Msg : RawMsg :=
  { action := some "join_game", success := none, error := none,
    playerId := some "me", avatars := none,
    players := some [("A", some c1Payload)], player := none, avatar := none }

/-- A joined session with an empty remote roster. -/
def c8State : ClientState :=
  { selfPlayer := { initialSelfPlayer with id := some "me" },
    players := emptyRoster, avatarAtlas := fun _ => none, camera := (0, 0),
    channelOpen := true }

/-- A message of an unrecognized kind. -/
def bogusMsg : RawMsg :=
  { action := some "chat_message", success := none, error := none,
    playerId := none, avatars := none, players := none, player := none,
    avatar := none }

/-- A server failure reply for a prior `move` command. -/
def moveFailMsg : RawMsg :=
  { action := some "move", success := some false, error := some "too fast",
    playerId := none, avatars := none, players := none, player := none,
    avatar := none }

/-- Input state with ArrowUp already held and the socket open. -/
def c6State : InputState := { pressedKeys := {"ArrowUp"}, socketOpen := true }

/-- First frame of the test avatar. -/
def c4ImgA : Img := { url := "a.png", w := 32, h := 32 }

/-- Second frame of the test avatar. -/
def c4ImgB : Img := { url := "b.png", w := 32, h := 32 }

/-- A two-frame atlas entry (frame sequences of length 2). -/
def c4Entry : AtlasEntry :=
  { north := [], south := [c4ImgA, c4ImgB], east := [c4ImgA, c4ImgB] }

/-- Atlas table holding the single avatar `"robot"`. -/
def c4Atlas : String → Option AtlasEntry :=
  fun n => if n = "robot" then some c4Entry else none

/-- An atlas-backed entity view facing east whose animation frame (5) is
beyond the 2-frame sequence. -/
def c4View : SpriteView :=
  { avatarName := some "robot", avatarImage := none, avatarWidth := 48,
    avatarHeight := 48, facing := some "east", animationFrame := some 5 }

/-- An atlas-backed entity view facing west. -/
def c9View : SpriteView :=
  { avatarName := some "robot", avatarImage := none, avatarWidth := 48,
    avatarHeight := 48, facing := some "west", animationFrame := some 0 }

theorem clamp_bounds {α : Type} [LinearOrder α] (v lo hi : α) (h : lo ≤ hi) :
    lo ≤ clamp v lo hi ∧ clamp v lo hi ≤ hi := by
  unfold clamp
  rw [if_neg (not_lt.mpr h)]
  exact ⟨le_max_left _ _, max_le h (min_le_left _ _)⟩

/-- Claim C3 (confirmed): for every world size, viewport size and local
position, the camera offset computed by `updateCamera` satisfies
`0 ≤ x ≤ max 0 (W - Vw)` and `0 ≤ y ≤ max 0 (H - Vh)`; when the world is
smaller than the viewport on an axis the camera is `0` on that axis; and
concretely, world 2000×2000, viewport 800×600, local entity at
`(1990, 1990)` yields camera `(1200, 1400)`. -/
theorem camera_clamped :
    (∀ (sx sy : ℚ) (vw vh ww wh : ℤ),
      0 ≤ (updateCamera sx sy vw vh ww wh).1 ∧
      (updateCamera sx sy vw vh ww wh).1 ≤ max 0 (ww - vw) ∧
      0 ≤ (updateCamera sx sy vw vh ww wh).2 ∧
      (updateCamera sx sy vw vh ww wh).2 ≤ max 0 (wh - vh) ∧
      (ww < vw → (updateCamera sx sy vw vh ww wh).1 = 0) ∧
      (wh < vh → (updateCamera sx sy vw vh ww wh).2 = 0)) ∧
    updateCamera 1990 1990 800 600 2000 2000 = (1200, 1400) := by
  constructor
  · intro sx sy vw vh ww wh
    have hx := clamp_bounds (Rat.floor (sx - (vw : ℚ) / 2)) 0 (max 0 (ww - vw))
      (le_max_left _ _)
    have hy := clamp_bounds (Rat.floor (sy - (vh : ℚ) / 2)) 0 (max 0 (wh - vh))
      (le_max_left _ _)
    refine ⟨hx.1, hx.2, hy.1, hy.2, ?_, ?_⟩
    · intro hsmall
      have hmax : max 0 (ww - vw) = (0 : ℤ) := max_eq_left (by omega)
      have hx0 := clamp_bounds (Rat.floor (sx - (vw : ℚ) / 2)) 0 (max 0 (ww - vw))
        (le_max_left _ _)
      exact le_antisymm (hmax ▸ hx0.2) hx0.1
    · intro hsmall
      have hmax : max 0 (wh - vh) = (0 : ℤ) := max_eq_left (by omega)
      have hy0 := clamp_bounds (Rat.floor (sy - (vh : ℚ) / 2)) 0 (max 0 (wh - vh))
        (le_max_left _ _)
      exact le_antisymm (hmax ▸ hy0.2) hy0.1
  · show updateCamera 1990 1990 800 600 2000 2000 = (1200, 1400)
    unfold updateCamera clamp
    norm_num [Rat.floor_def']

/-- Witness for `camera_clamped`: concrete instances including a world
narrower than the viewport. -/
theorem camera_clamped_witness :
    (0 ≤ (updateCamera 5 7 800 600 100 2000).1 ∧
      (updateCamera 5 7 800 600 100 2000).1 = 0 ∧
      (updateCamera 5 7 800 600 100 2000).2 ≤ max 0 (2000 - 600)) ∧
    updateCamera 1990 1990 800 600 2000 2000 = (1200, 1400) := by
  have h := camera_clamped
  have hb := h.1 5 7 800 600 100 2000
  exact ⟨⟨hb.1, hb.2.2.2.2.1 (by norm_num), hb.2.2.2.1⟩, h.2⟩

/-- Claim C7 (confirmed): an inbound message that is unparseable (`none`
after the parse step), of an unrecognized kind, or a server failure reply
for one of the client's prior actions (`join_game`, `move`, `stop`) leaves
the whole session state — roster, local entity, atlas, camera, channel-open
flag — unchanged.  `handleInbound` is a total function, which models that
the try/catch-wrapped handler lets no exception escape to the render loop. -/
theorem malformed_ignored (s : ClientState) (m : Option RawMsg)
    (h : m = none ∨
      (∃ raw, m = some raw ∧
        raw.action ≠ some "join_game" ∧ raw.action ≠ some "player_joined" ∧
        raw.action ≠ some "players_moved" ∧ raw.action ≠ some "player_left") ∨
      (∃ raw, m = some raw ∧ raw.success = some false ∧
        (raw.action = some "join_game" ∨ raw.action = some "move" ∨
          raw.action = some "stop"))) :
    handleInbound s m = s := by
  rcases h with rfl | ⟨raw, rfl, h1, h2, h3, h4⟩ | ⟨raw, rfl, hfail, hact⟩
  · rfl
  · show processMessage s raw = s
    unfold processMessage
    rw [if_neg h1, if_neg h2, if_neg h3, if_neg h4]
  · show processMessage s raw = s
    rcases hact with hj | hm | hs
    · unfold processMessage
      rw [if_pos hj]
      unfold processJoinGame
      rw [if_pos hfail]
    · unfold processMessage
      rw [hm]
      simp
    · unfold processMessage
      rw [hs]
      simp

/-- Witness for `malformed_ignored`: an unknown-kind message and a failure
reply for a prior `move` both leave the concrete joined state unchanged. -/
theorem malformed_ignored_witness :
    handleInbound c1State (some bogusMsg) = c1State ∧
    handleInbound c1State (some moveFailMsg) = c1State := by
  constructor
  · exact malformed_ignored c1State (some bogusMsg)
      (Or.inr (Or.inl ⟨bogusMsg, rfl, by simp [bogusMsg], by simp [bogusMsg],
        by simp [bogusMsg], by simp [bogusMsg]⟩))
  · exact malformed_ignored c1State (some moveFailMsg)
      (Or.inr (Or.inr ⟨moveFailMsg, rfl, rfl, Or.inr (Or.inl rfl)⟩))

/-- Claim C6 (corrected) — counterexample to the claim as stated: with
`ArrowUp` already in the held set, a further `ArrowUp` keydown event (an
auto-repeat) emits another move-intent message, so emission is not
restricted to the not-held → held edge. -/
theorem keydown_repeat_counterexample :
    "ArrowUp" ∈ c6State.pressedKeys ∧
    (handleKeyDown c6State "ArrowUp").2 = [OutMsg.move "up"] := by
  constructor
  · simp [c6State]
  · rfl

/-- Claim C6 (corrected, amended): a move-intent message is emitted on
every arrow-key keydown event — one message per event, including repeats
while the key is already held — and a stop message is emitted on an arrow
keyup exactly when the held set left after removing the key is empty.
Non-arrow keys emit nothing and change nothing. -/
theorem keydown_keyup_amended (st : InputState) (k : String)
    (hopen : st.socketOpen = true) :
    (k = "ArrowUp" → (handleKeyDown st k).2 = [OutMsg.move "up"]) ∧
    (k = "ArrowDown" → (handleKeyDown st k).2 = [OutMsg.move "down"]) ∧
    (k = "ArrowLeft" → (handleKeyDown st k).2 = [OutMsg.move "left"]) ∧
    (k = "ArrowRight" → (handleKeyDown st k).2 = [OutMsg.move "right"]) ∧
    (isArrowKey k = false → handleKeyDown st k = (st, [])) ∧
    (isArrowKey k = true →
      ((handleKeyUp st k).2 = [OutMsg.stop] ↔ st.pressedKeys.erase k = ∅)) ∧
    (isArrowKey k = false → handleKeyUp st k = (st, [])) := by
  refine ⟨?_, ?_, ?_, ?_, ?_, ?_, ?_⟩
  · rintro rfl
    simp [handleKeyDown, isArrowKey, sendMoveCommand, directionFromKey, hopen]
  · rintro rfl
    simp [handleKeyDown, isArrowKey, sendMoveCommand, directionFromKey, hopen]
  · rintro rfl
    simp [handleKeyDown, isArrowKey, sendMoveCommand, directionFromKey, hopen]
  · rintro rfl
    simp [handleKeyDown, isArrowKey, sendMoveCommand, directionFromKey, hopen]
  · intro hk
    simp [handleKeyDown, hk]
  · intro hk
    by_cases he : st.pressedKeys.erase k = ∅
    · simp [handleKeyUp, hk, he, hopen]
    · simp [handleKeyUp, hk, he]
  · intro hk
    simp [handleKeyUp, hk]

/-- Witness for `keydown_keyup_amended`: a repeat keydown of the already
held ArrowUp emits a move, and its keyup (leaving the held set empty)
emits a stop. -/
theorem keydown_keyup_amended_witness :
    c6State.socketOpen = true ∧
    (handleKeyDown c6State "ArrowUp").2 = [OutMsg.move "up"] ∧
    ((handleKeyUp c6State "ArrowUp").2 = [OutMsg.stop] ↔
      c6State.pressedKeys.erase "ArrowUp" = ∅) := by
  have h := keydown_keyup_amended c6State "ArrowUp" rfl
  exact ⟨rfl, h.1 rfl, h.2.2.2.2.2.1 rfl⟩

/-- Claim C5 (confirmed): on a tick with a non-empty held direction
`(dx, dy)`, the displacement applied before bounds-clamping is exactly the
held-input direction vector normalized to unit length,
`(dx, dy) / √(dx² + dy²)`, times `speed * dt` — so its Euclidean length is
exactly `speed * dt`, the same for diagonal and axis-aligned input — with
`dt` clamped to at most 50 ms (1/20 s), and the resulting position is
clamped into `[0, max 0 worldW] × [0, max 0 worldH]`; the default speed
(`moveSpeedOf none`) is 200 world-pixels per second. -/
theorem movement_normalized (x y speed elapsedMs worldW worldH : ℝ)
    (left right up down : Bool) (dx dy dt : ℝ)
    (hdx : dx = dirX left right) (hdy : dy = dirY up down)
    (hdt : dt = min 0.05 (max 0 (elapsedMs / 1000)))
    (hmove : ¬(dx = 0 ∧ dy = 0)) (hspeed : 0 ≤ speed) :
    (dx / Real.sqrt (dx ^ 2 + dy ^ 2)) ^ 2 +
      (dy / Real.sqrt (dx ^ 2 + dy ^ 2)) ^ 2 = 1 ∧
    integrateMovement x y left right up down speed elapsedMs worldW worldH =
      (clamp (x + dx / Real.sqrt (dx ^ 2 + dy ^ 2) * (speed * dt)) 0 (max 0 worldW),
       clamp (y + dy / Real.sqrt (dx ^ 2 + dy ^ 2) * (speed * dt)) 0 (max 0 worldH)) ∧
    Real.sqrt ((dx / Real.sqrt (dx ^ 2 + dy ^ 2) * (speed * dt)) ^ 2 +
        (dy / Real.sqrt (dx ^ 2 + dy ^ 2) * (speed * dt)) ^ 2) = speed * dt ∧
    dt ≤ 1 / 20 ∧
    moveSpeedOf none = 200 := by
  have hsum : 0 < dx ^ 2 + dy ^ 2 := by
    rcases not_and_or.mp hmove with h | h
    · have h1 : 0 < dx ^ 2 := by
        rcases lt_or_gt_of_ne h with hlt | hgt
        · nlinarith
        · nlinarith
      nlinarith [sq_nonneg dy]
    · have h1 : 0 < dy ^ 2 := by
        rcases lt_or_gt_of_ne h with hlt | hgt
        · nlinarith
        · nlinarith
      nlinarith [sq_nonneg dx]
  have hL : 0 < Real.sqrt (dx ^ 2 + dy ^ 2) := Real.sqrt_pos.mpr hsum
  have hLne : Real.sqrt (dx ^ 2 + dy ^ 2) ≠ 0 := ne_of_gt hL
  have hdt0 : 0 ≤ dt := by
    rw [hdt]
    exact le_min (by norm_num) (le_max_left 0 _)
  refine ⟨?_, ?_, ?_, ?_, rfl⟩
  · field_simp
  · simp only [integrateMovement]
    rw [← hdx, ← hdy, ← hdt, if_neg hmove, if_neg hLne]
  · have hexp : (dx / Real.sqrt (dx ^ 2 + dy ^ 2) * (speed * dt)) ^ 2 +
        (dy / Real.sqrt (dx ^ 2 + dy ^ 2) * (speed * dt)) ^ 2 = (speed * dt) ^ 2 := by
      field_simp
      ring
    rw [hexp, Real.sqrt_sq (mul_nonneg hspeed hdt0)]
  · rw [hdt]
    exact le_trans (min_le_left _ _) (by norm_num)

/-- Witness for `movement_normalized`: ArrowLeft and ArrowUp held for one
second (so `dt` clamps to 50 ms) at the default 200 px/s speed; the
displacement direction is the normalized diagonal `(-1, -1)/√2`. -/
theorem movement_normalized_witness :
    ((-1 : ℝ) / Real.sqrt ((-1 : ℝ) ^ 2 + (-1 : ℝ) ^ 2)) ^ 2 +
      ((-1 : ℝ) / Real.sqrt ((-1 : ℝ) ^ 2 + (-1 : ℝ) ^ 2)) ^ 2 = 1 ∧
    integrateMovement 100 100 true false true false 200 1000 2000 2000 =
      (clamp (100 + (-1 : ℝ) / Real.sqrt ((-1 : ℝ) ^ 2 + (-1 : ℝ) ^ 2) *
          (200 * min 0.05 (max 0 ((1000 : ℝ) / 1000)))) 0 (max 0 2000),
       clamp (100 + (-1 : ℝ) / Real.sqrt ((-1 : ℝ) ^ 2 + (-1 : ℝ) ^ 2) *
          (200 * min 0.05 (max 0 ((1000 : ℝ) / 1000)))) 0 (max 0 2000)) ∧
    Real.sqrt (((-1 : ℝ) / Real.sqrt ((-1 : ℝ) ^ 2 + (-1 : ℝ) ^ 2) *
          (200 * min 0.05 (max 0 ((1000 : ℝ) / 1000)))) ^ 2 +
        ((-1 : ℝ) / Real.sqrt ((-1 : ℝ) ^ 2 + (-1 : ℝ) ^ 2) *
          (200 * min 0.05 (max 0 ((1000 : ℝ) / 1000)))) ^ 2) =
      200 * min 0.05 (max 0 ((1000 : ℝ) / 1000)) ∧
    min 0.05 (max 0 ((1000 : ℝ) / 1000)) ≤ 1 / 20 ∧
    moveSpeedOf none = 200 :=
  movement_normalized 100 100 200 1000 2000 2000 true false true false
    (-1) (-1) (min 0.05 (max 0 ((1000 : ℝ) / 1000)))
    (by norm_num [dirX]) (by norm_num [dirY]) rfl (by norm_num) (by norm_num)

theorem rosterSet_same (r : Roster) (k : String) (v : OtherPlayer) :
    rosterSet r k v k = some v := by
  simp [rosterSet]

theorem rosterSet_other (r : Roster) (k : String) (v : OtherPlayer) (k' : String)
    (h : k' ≠ k) : rosterSet r k v k' = r k' := by
  simp [rosterSet, h]

theorem ensureOtherPlayer_of_mem {r : Roster} {pid : String} {op : OtherPlayer}
    (h : r pid = some op) : ensureOtherPlayer r pid = op := by
  simp [ensureOtherPlayer, h]

theorem ensureOtherPlayer_of_none {r : Roster} {pid : String}
    (h : r pid = none) : ensureOtherPlayer r pid = defaultOtherPlayer := by
  simp [ensureOtherPlayer, h]

theorem processMessage_movedMsg (s : ClientState) (pid : String) (p : PlayerPayload)
    (hself : s.selfPlayer.id ≠ some pid) :
    processMessage s (movedMsg pid p) =
      { s with players :=
          rosterSet s.players pid (applyMovedOther (ensureOtherPlayer s.players pid) p) } := by
  have hguard : ¬(some pid = s.selfPlayer.id) := fun h => hself h.symm
  simp only [processMessage, movedMsg, processPlayersMoved, List.foldl_cons,
    List.foldl_nil, movedStep, Option.some.injEq, String.reduceEq, if_false,
    reduceCtorEq, ite_false, ite_true, if_true, eq_self_iff_true]
  rw [if_neg hguard]

theorem applyMovedOther_x (op : OtherPlayer) (p : PlayerPayload) :
    (applyMovedOther op p).x = p.x.getD op.x := by
  unfold applyMovedOther prepareLabelForPlayer
  cases p.username with
  | none => rfl
  | some nm => by_cases h : nm ≠ op.name <;> simp [h]

theorem applyMovedOther_y (op : OtherPlayer) (p : PlayerPayload) :
    (applyMovedOther op p).y = p.y.getD op.y := by
  unfold applyMovedOther prepareLabelForPlayer
  cases p.username with
  | none => rfl
  | some nm => by_cases h : nm ≠ op.name <;> simp [h]

theorem applyMovedOther_facing (op : OtherPlayer) (p : PlayerPayload) :
    (applyMovedOther op p).facing =
      match p.facing with
      | some f => some f
      | none => op.facing := by
  unfold applyMovedOther prepareLabelForPlayer
  cases p.username with
  | none => rfl
  | some nm => by_cases h : nm ≠ op.name <;> simp [h]

theorem applyMovedOther_animationFrame (op : OtherPlayer) (p : PlayerPayload) :
    (applyMovedOther op p).animationFrame =
      match p.animationFrame with
      | some af => some af
      | none => op.animationFrame := by
  unfold applyMovedOther prepareLabelForPlayer
  cases p.username with
  | none => rfl
  | some nm => by_cases h : nm ≠ op.name <;> simp [h]

theorem applyMovedOther_isMoving (op : OtherPlayer) (p : PlayerPayload) :
    (applyMovedOther op p).isMoving =
      match p.isMoving with
      | some mv => some mv
      | none => op.isMoving := by
  unfold applyMovedOther prepareLabelForPlayer
  cases p.username with
  | none => rfl
  | some nm => by_cases h : nm ≠ op.name <;> simp [h]

theorem applyMovedOther_name (op : OtherPlayer) (p : PlayerPayload) :
    (applyMovedOther op p).name = p.username.getD op.name := by
  unfold applyMovedOther prepareLabelForPlayer
  cases p.username with
  | none => rfl
  | some nm =>
    by_cases h : nm ≠ op.name
    · simp [h]
    · push_neg at h
      simp [h]

theorem applyMovedOther_size (op : OtherPlayer) (p : PlayerPayload) :
    (applyMovedOther op p).avatarWidth = op.avatarWidth ∧
    (applyMovedOther op p).avatarHeight = op.avatarHeight := by
  unfold applyMovedOther prepareLabelForPlayer
  cases p.username with
  | none => exact ⟨rfl, rfl⟩
  | some nm => by_cases h : nm ≠ op.name <;> simp [h]

theorem applyMovedOther_label_of_noname (op : OtherPlayer) (p : PlayerPayload)
    (h : p.username = none) :
    (applyMovedOther op p).label = op.label ∧
    (applyMovedOther op p).labelGen = op.labelGen := by
  unfold applyMovedOther
  rw [h]
  exact ⟨rfl, rfl⟩

theorem applyMovedOther_labelGen_iff (op : OtherPlayer) (p : PlayerPayload) :
    (applyMovedOther op p).labelGen ≠ op.labelGen ↔
      ∃ nm, p.username = some nm ∧ nm ≠ op.name := by
  unfold applyMovedOther prepareLabelForPlayer
  cases hu : p.username with
  | none => simp
  | some nm =>
    by_cases h : nm ≠ op.name
    · simp only [if_pos h]
      constructor
      · intro _
        exact ⟨nm, rfl, h⟩
      · intro _
        exact Nat.succ_ne_self op.labelGen
    · simp only [if_neg h]
      push_neg at h
      constructor
      · intro hc
        exact absurd rfl hc
      · rintro ⟨nm', hnm', hne⟩
        cases hnm'
        exact absurd h hne

/-- Claim C2 (confirmed): reconciling a `players_moved` message applies only
the fields present in the payload to the named remote entity: a message
carrying only `{x}` sets that entity's x and leaves the rest of the state —
the entity's other fields, every other roster entry, the local entity, the
atlas and the camera — unchanged; each absent field retains its prior
value; and the label is regenerated (its generation counter changes)
exactly when the payload carries a `username` different from the entity's
current display name. -/
theorem moved_partial_update (s : ClientState) (pid : String) (op : OtherPlayer)
    (p : PlayerPayload) (v : ℚ)
    (hmem : s.players pid = some op) (hself : s.selfPlayer.id ≠ some pid) :
    ((processMessage s (movedMsg pid (xOnlyPayload v))).players pid =
        some { op with x := v } ∧
      (∀ k, k ≠ pid →
        (processMessage s (movedMsg pid (xOnlyPayload v))).players k = s.players k) ∧
      (processMessage s (movedMsg pid (xOnlyPayload v))).selfPlayer = s.selfPlayer ∧
      (processMessage s (movedMsg pid (xOnlyPayload v))).avatarAtlas = s.avatarAtlas ∧
      (processMessage s (movedMsg pid (xOnlyPayload v))).camera = s.camera) ∧
    ((applyMovedOther op p).labelGen ≠ op.labelGen ↔
      ∃ nm, p.username = some nm ∧ nm ≠ op.name) ∧
    (p.x = none → (applyMovedOther op p).x = op.x) ∧
    (p.y = none → (applyMovedOther op p).y = op.y) ∧
    (p.facing = none → (applyMovedOther op p).facing = op.facing) ∧
    (p.animationFrame = none →
      (applyMovedOther op p).animationFrame = op.animationFrame) ∧
    (p.isMoving = none → (applyMovedOther op p).isMoving = op.isMoving) ∧
    (p.username = none →
      (applyMovedOther op p).name = op.name ∧
      (applyMovedOther op p).label = op.label) := by
  have hrun := processMessage_movedMsg s pid (xOnlyPayload v) hself
  refine ⟨⟨?_, ?_, ?_, ?_, ?_⟩, applyMovedOther_labelGen_iff op p,
    ?_, ?_, ?_, ?_, ?_, ?_⟩
  · rw [hrun]
    show rosterSet s.players pid
        (applyMovedOther (ensureOtherPlayer s.players pid) (xOnlyPayload v)) pid = _
    rw [rosterSet_same, ensureOtherPlayer_of_mem hmem]
    rfl
  · intro k hk
    rw [hrun]
    exact rosterSet_other _ _ _ _ hk
  · rw [hrun]
  · rw [hrun]
  · rw [hrun]
  · intro h
    rw [applyMovedOther_x, h]
    rfl
  · intro h
    rw [applyMovedOther_y, h]
    rfl
  · intro h
    rw [applyMovedOther_facing, h]
  · intro h
    rw [applyMovedOther_animationFrame, h]
  · intro h
    rw [applyMovedOther_isMoving, h]
  · intro h
    refine ⟨?_, (applyMovedOther_label_of_noname op p h).1⟩
    rw [applyMovedOther_name, h]
    rfl

/-- Witness for `moved_partial_update`: entity `A` of the concrete state,
updated by a message carrying only `x := 50`. -/
theorem moved_partial_update_witness :
    c1State.players "A" = some c1opA ∧ c1State.selfPlayer.id ≠ some "A" ∧
    (processMessage c1State (movedMsg "A" (xOnlyPayload 50))).players "A" =
      some { c1opA with x := 50 } := by
  have hmem : c1State.players "A" = some c1opA := rfl
  have hself : c1State.selfPlayer.id ≠ some "A" := by
    simp [c1State, initialSelfPlayer]
  exact ⟨hmem, hself,
    ((moved_partial_update c1State "A" c1opA (xOnlyPayload 50) 50 hmem hself).1).1⟩

/-- Claim C8 (confirmed): a `players_moved` entry naming an identifier not
in the roster creates that remote entity — it is not dropped and raises no
error — with the payload's fields applied and defaults elsewhere: name
`"Player"`, avatar size 48×48, position 0 on axes the payload does not
supply, and no facing/frame/moving values beyond those supplied. -/
theorem moved_unknown_id_upsert (s : ClientState) (pid : String) (p : PlayerPayload)
    (habs : s.players pid = none) (hself : s.selfPlayer.id ≠ some pid) :
    ∃ op : OtherPlayer,
      (processMessage s (movedMsg pid p)).players pid = some op ∧
      op.name = p.username.getD "Player" ∧
      op.x = p.x.getD 0 ∧
      op.y = p.y.getD 0 ∧
      op.avatarWidth = 48 ∧
      op.avatarHeight = 48 ∧
      op.facing = p.facing ∧
      op.animationFrame = p.animationFrame ∧
      op.isMoving = p.isMoving ∧
      (∀ k, k ≠ pid → (processMessage s (movedMsg pid p)).players k = s.players k) := by
  have hrun := processMessage_movedMsg s pid p hself
  refine ⟨applyMovedOther defaultOtherPlayer p,
    ?_, ?_, ?_, ?_, ?_, ?_, ?_, ?_, ?_, ?_⟩
  · rw [hrun]
    show rosterSet s.players pid
        (applyMovedOther (ensureOtherPlayer s.players pid) p) pid = _
    rw [rosterSet_same, ensureOtherPlayer_of_none habs]
  · rw [applyMovedOther_name]
    rfl
  · rw [applyMovedOther_x]
    rfl
  · rw [applyMovedOther_y]
    rfl
  · exact (applyMovedOther_size defaultOtherPlayer p).1
  · exact (applyMovedOther_size defaultOtherPlayer p).2
  · rw [applyMovedOther_facing]
    cases p.facing <;> rfl
  · rw [applyMovedOther_animationFrame]
    cases p.animationFrame <;> rfl
  · rw [applyMovedOther_isMoving]
    cases p.isMoving <;> rfl
  · intro k hk
    rw [hrun]
    exact rosterSet_other _ _ _ _ hk

/-- Witness for `moved_unknown_id_upsert`: a move update for the unseen
identifier `"Z"` on the concrete joined state with an empty roster. -/
theorem moved_unknown_id_upsert_witness :
    c8State.players "Z" = none ∧ c8State.selfPlayer.id ≠ some "Z" ∧
    ∃ op : OtherPlayer,
      (processMessage c8State (movedMsg "Z" (xOnlyPayload 5))).players "Z" = some op ∧
      op.name = "Player" ∧ op.x = 5 ∧ op.avatarWidth = 48 := by
  have habs : c8State.players "Z" = none := rfl
  have hself : c8State.selfPlayer.id ≠ some "Z" := by
    simp [c8State, initialSelfPlayer]
  obtain ⟨op, hp, hname, hx, _, hw, _, _, _, _, _⟩ :=
    moved_unknown_id_upsert c8State "Z" (xOnlyPayload 5) habs hself
  exact ⟨habs, hself, op, hp, hname.trans rfl, hx.trans rfl, hw⟩

theorem withSelfId_players (s : ClientState) (pid : Option String) :
    (withSelfId s pid).players = s.players := rfl

theorem withSelfId_id (s : ClientState) (pid : Option String) :
    (withSelfId s pid).selfPlayer.id = pid := rfl

theorem loadAvatarsStep_players (s : ClientState) (m : RawMsg) :
    (loadAvatarsStep s m).players = s.players := by
  cases hav : m.avatars <;> simp [loadAvatarsStep, hav]

theorem upsert_isSome (r : Roster) (p : PlayerPayload) (k : String)
    (h : (r k).isSome = true) : (upsertPlayerFromRoster r p k).isSome = true := by
  cases hp : p.playerId with
  | none => simpa [upsertPlayerFromRoster, hp] using h
  | some kk =>
    by_cases hk : k = kk
    · subst hk
      simp [upsertPlayerFromRoster, hp, rosterSet]
    · simp [upsertPlayerFromRoster, hp, rosterSet, hk, h]

theorem upsert_present (r : Roster) (p : PlayerPayload) (kk : String)
    (hp : p.playerId = some kk) : (upsertPlayerFromRoster r p kk).isSome = true := by
  simp [upsertPlayerFromRoster, hp, rosterSet]

theorem upsert_keeps_none (r : Roster) (p : PlayerPayload) (i : String)
    (hne : p.playerId ≠ some i) (h : r i = none) :
    upsertPlayerFromRoster r p i = none := by
  cases hp : p.playerId with
  | none => simpa [upsertPlayerFromRoster, hp] using h
  | some kk =>
    have hik : i ≠ kk := by
      intro he
      exact hne (by rw [hp, he])
    simp [upsertPlayerFromRoster, hp, rosterSet, hik, h]

theorem joinRosterStep_id (st : ClientState) (e : String × Option PlayerPayload) :
    (joinRosterStep st e).selfPlayer.id = st.selfPlayer.id := by
  obtain ⟨pid, pp⟩ := e
  cases pp with
  | none => rfl
  | some p =>
    by_cases hg : some pid = st.selfPlayer.id
    · simp [joinRosterStep, hg, applySelfFromRoster]
    · simp [joinRosterStep, hg]

theorem joinRosterStep_isSome (st : ClientState) (e : String × Option PlayerPayload)
    (k : String) (h : (st.players k).isSome = true) :
    ((joinRosterStep st e).players k).isSome = true := by
  obtain ⟨pid, pp⟩ := e
  cases pp with
  | none => exact h
  | some p =>
    by_cases hg : some pid = st.selfPlayer.id
    · simpa [joinRosterStep, hg] using h
    · simp only [joinRosterStep, if_neg hg]
      exact upsert_isSome st.players p k h

theorem joinRosterStep_keeps_none (st : ClientState)
    (e : String × Option PlayerPayload) (i : String)
    (hid : st.selfPlayer.id = some i)
    (hwf : ∀ p, e.2 = some p → p.playerId = some e.1)
    (h : st.players i = none) : (joinRosterStep st e).players i = none := by
  obtain ⟨pid, pp⟩ := e
  cases pp with
  | none => exact h
  | some p =>
    by_cases hg : some pid = st.selfPlayer.id
    · simpa [joinRosterStep, hg] using h
    · have hpid : p.playerId = some pid := hwf p rfl
      have hne : p.playerId ≠ some i := by
        rw [hpid]
        intro he
        injection he with he'
        exact hg (by rw [he', hid])
      simp only [joinRosterStep, if_neg hg]
      exact upsert_keeps_none st.players p i hne h

theorem foldl_join_id (l : List (String × Option PlayerPayload)) :
    ∀ st : ClientState,
      ((l.foldl joinRosterStep st)).selfPlayer.id = st.selfPlayer.id := by
  induction l with
  | nil => intro st; rfl
  | cons e t ih =>
    intro st
    rw [List.foldl_cons, ih, joinRosterStep_id]

theorem foldl_join_isSome (l : List (String × Option PlayerPayload)) :
    ∀ (st : ClientState) (k : String), (st.players k).isSome = true →
      ((l.foldl joinRosterStep st).players k).isSome = true := by
  induction l with
  | nil => intro st k h; exact h
  | cons e t ih =>
    intro st k h
    rw [List.foldl_cons]
    exact ih _ k (joinRosterStep_isSome st e k h)

theorem foldl_join_present (pid : String) (p : PlayerPayload)
    (hpid : p.playerId = some pid) :
    ∀ (l : List (String × Option PlayerPayload)) (st : ClientState),
      (pid, some p) ∈ l → st.selfPlayer.id ≠ some pid →
      ((l.foldl joinRosterStep st).players pid).isSome = true := by
  intro l
  induction l with
  | nil =>
    intro st hmem _
    cases hmem
  | cons e t ih =>
    intro st hmem hne
    rw [List.foldl_cons]
    rcases List.mem_cons.mp hmem with heq | hmem'
    · have hguard : ¬(some pid = st.selfPlayer.id) := fun hh => hne hh.symm
      apply foldl_join_isSome
      rw [← heq]
      simp only [joinRosterStep, if_neg hguard]
      exact upsert_present st.players p pid hpid
    · exact ih _ hmem' (by rw [joinRosterStep_id]; exact hne)

theorem foldl_join_keeps_none (i : String) :
    ∀ (l : List (String × Option PlayerPayload)) (st : ClientState),
      st.selfPlayer.id = some i →
      (∀ e ∈ l, ∀ p, e.2 = some p → p.playerId = some e.1) →
      st.players i = none →
      (l.foldl joinRosterStep st).players i = none := by
  intro l
  induction l with
  | nil => intro st _ _ h; exact h
  | cons e t ih =>
    intro st hid hwf h
    rw [List.foldl_cons]
    exact ih _ (by rw [joinRosterStep_id]; exact hid)
      (fun e' he' => hwf e' (List.mem_cons_of_mem e he'))
      (joinRosterStep_keeps_none st e i hid (hwf e (List.mem_cons_self e t)) h)

theorem movedStep_id (st : ClientState) (e : String × Option PlayerPayload) :
    (movedStep st e).selfPlayer.id = st.selfPlayer.id := by
  obtain ⟨pid, pp⟩ := e
  cases pp with
  | none => rfl
  | some p =>
    by_cases hg : some pid = st.selfPlayer.id
    · simp [movedStep, hg, applyMovedSelf]
    · simp [movedStep, hg]

theorem movedStep_keeps_none (st : ClientState)
    (e : String × Option PlayerPayload) (i : String)
    (hid : st.selfPlayer.id = some i) (h : st.players i = none) :
    (movedStep st e).players i = none := by
  obtain ⟨pid, pp⟩ := e
  cases pp with
  | none => exact h
  | some p =>
    by_cases hg : some pid = st.selfPlayer.id
    · simpa [movedStep, hg] using h
    · have hne : i ≠ pid := by
        intro he
        exact hg (by rw [hid, he])
      simp only [movedStep, if_neg hg]
      rw [rosterSet_other _ _ _ _ hne]
      exact h

theorem foldl_moved_id (l : List (String × Option PlayerPayload)) :
    ∀ st : ClientState,
      ((l.foldl movedStep st)).selfPlayer.id = st.selfPlayer.id := by
  induction l with
  | nil => intro st; rfl
  | cons e t ih =>
    intro st
    rw [List.foldl_cons, ih, movedStep_id]

theorem foldl_moved_keeps_none (i : String) :
    ∀ (l : List (String × Option PlayerPayload)) (st : ClientState),
      st.selfPlayer.id = some i → st.players i = none →
      (l.foldl movedStep st).players i = none := by
  intro l
  induction l with
  | nil => intro st _ h; exact h
  | cons e t ih =>
    intro st hid h
    rw [List.foldl_cons]
    exact ih _ (by rw [movedStep_id]; exact hid)
      (movedStep_keeps_none st e i hid h)

/-- Claim C1 (corrected) — counterexample to the claim as stated: with the
roster holding `{A, B}`, reconciling a `join_game` acknowledgement whose
`players` snapshot lists only `A` leaves `B` in the roster untouched, so
the result is `{A, B}`, not exactly `{A}`: the handler never removes
entities absent from the snapshot. -/
theorem snapshot_counterexample :
    (c1State.players "A").isSome = true ∧
    (c1State.players "B").isSome = true ∧
    c1Msg.players = some [("A", some c1Payload)] ∧
    (processMessage c1State c1Msg).players "B" = some c1opB := by
  exact ⟨rfl, rfl, rfl, rfl⟩

/-- Claim C1 (corrected, amended): reconciling a `join_game` roster
snapshot creates-or-updates every listed entity but removes nothing: every
roster entry present before is still present after, and every snapshot
entry whose identifier is not the local id is present in the roster after.
For a roster `{A, B}` and a snapshot listing only `{A}`, the result is
`{A, B}`. -/
theorem snapshot_upsert_no_removal (s : ClientState) (m : RawMsg)
    (hact : m.action = some "join_game") (hok : m.success ≠ some false) :
    (∀ k, (s.players k).isSome = true →
      ((processMessage s m).players k).isSome = true) ∧
    (∀ entries, m.players = some entries →
      ∀ pid p, (pid, some p) ∈ entries → p.playerId = some pid →
        m.playerId ≠ some pid →
        ((processMessage s m).players pid).isSome = true) := by
  have hdisp : processMessage s m = processJoinGame s m := by
    unfold processMessage
    rw [if_pos hact]
  rw [hdisp]
  unfold processJoinGame
  rw [if_neg hok]
  constructor
  · intro k hk
    cases hpl : m.players with
    | none =>
      rw [withSelfId_players, loadAvatarsStep_players]
      exact hk
    | some entries =>
      apply foldl_join_isSome
      rw [withSelfId_players, loadAvatarsStep_players]
      exact hk
  · intro entries hpl pid p hmem hpid hneid
    rw [hpl]
    apply foldl_join_present pid p hpid entries _ hmem
    rw [withSelfId_id]
    exact hneid

/-- Witness for `snapshot_upsert_no_removal`: on the concrete `{A, B}`
state and the snapshot listing only `A`, entity `B` is retained and entity
`A` is present after reconciliation. -/
theorem snapshot_upsert_no_removal_witness :
    ((processMessage c1State c1Msg).players "B").isSome = true ∧
    ((processMessage c1State c1Msg).players "A").isSome = true := by
  have h := snapshot_upsert_no_removal c1State c1Msg rfl (by simp [c1Msg])
  exact ⟨h.1 "B" rfl,
    h.2 [("A", some c1Payload)] rfl "A" c1Payload (List.mem_singleton_self _) rfl
      (by simp [c1Msg])⟩

/-- Claim C10 (confirmed): reconciling a `join_game` acknowledgement or a
`players_moved` message whose roster object is keyed by each payload's own
identifier never inserts the local player's identifier into the
remote-players roster: if the roster lacks the (post-message) local
identifier beforehand, it still lacks it afterwards — entries keyed by the
local identifier are routed to the local entity instead. -/
theorem local_id_never_in_roster (s : ClientState) (m : RawMsg) (i : String)
    (hkind : m.action = some "join_game" ∨ m.action = some "players_moved")
    (hwf : ∀ entries, m.players = some entries →
      ∀ e ∈ entries, ∀ p, e.2 = some p → p.playerId = some e.1)
    (hid : (processMessage s m).selfPlayer.id = some i)
    (hpre : s.players i = none) :
    (processMessage s m).players i = none := by
  rcases hkind with hj | hm
  · have hdisp : processMessage s m = processJoinGame s m := by
      unfold processMessage
      rw [if_pos hj]
    rw [hdisp] at hid ⊢
    unfold processJoinGame at hid ⊢
    by_cases hfail : m.success = some false
    · rw [if_pos hfail]
      exact hpre
    · rw [if_neg hfail] at hid ⊢
      cases hpl : m.players with
      | none =>
        show (withSelfId (loadAvatarsStep s m) m.playerId).players i = none
        rw [withSelfId_players, loadAvatarsStep_players]
        exact hpre
      | some entries =>
        show (List.foldl joinRosterStep
          (withSelfId (loadAvatarsStep s m) m.playerId) entries).players i = none
        rw [hpl] at hid
        have hid0 : (withSelfId (loadAvatarsStep s m) m.playerId).selfPlayer.id =
            some i := by
          rw [← foldl_join_id entries (withSelfId (loadAvatarsStep s m) m.playerId)]
          exact hid
        apply foldl_join_keeps_none i entries _ hid0 (hwf entries hpl)
        rw [withSelfId_players, loadAvatarsStep_players]
        exact hpre
  · have hdisp : processMessage s m = processPlayersMoved s m := by
      unfold processMessage
      rw [hm]
      simp
    rw [hdisp] at hid ⊢
    unfold processPlayersMoved at hid ⊢
    cases hpl : m.players with
    | none => exact hpre
    | some entries =>
      show (List.foldl movedStep s entries).players i = none
      rw [hpl] at hid
      have hid0 : s.selfPlayer.id = some i := by
        rw [← foldl_moved_id entries s]
        exact hid
      exact foldl_moved_keeps_none i entries s hid0 hpre

/-- Witness for `local_id_never_in_roster`: a `players_moved` for entity
`A` on the joined state (local id `"me"`, empty roster) leaves `"me"`
outside the roster. -/
theorem local_id_never_in_roster_witness :
    c8State.players "me" = none ∧
    (processMessage c8State (movedMsg "A" c1Payload)).players "me" = none := by
  refine ⟨rfl, ?_⟩
  apply local_id_never_in_roster c8State (movedMsg "A" c1Payload) "me"
    (Or.inr rfl) ?_ rfl rfl
  intro entries he e hmem p hp
  have hent : entries = [("A", some c1Payload)] := by
    have : some [("A", some c1Payload)] = some entries := he
    injection this with h2
    exact h2.symm
  subst hent
  have he1 : e = ("A", some c1Payload) := by
    simpa using hmem
  subst he1
  have hp1 : p = c1Payload := by
    have : some c1Payload = some p := hp
    injection this with h3
    exact h3.symm
  subst hp1
  rfl

/-- Claim C4 (corrected) — counterexample to the claim as stated: for a
2-frame east sequence and `animationFrame = 5`, the claimed rule (clamp
into `[0, len-1]`, i.e. index `min 5 (2-1) = 1`) would select the second
frame, but the code clamps into the hardcoded `[0, 2]`, finds no frame at
index 2, and falls back to the first frame. -/
theorem sprite_clamp_counterexample :
    drawPlayerSprite c4Atlas c4View 0 0 =
      DrawOp.frame c4ImgA false 0 (-16) (-16) 32 32 ∧
    (framesFor c4Entry "east").get? (min 5 ((framesFor c4Entry "east").length - 1)) =
      some c4ImgB ∧
    c4ImgA ≠ c4ImgB := by
  refine ⟨?_, ?_, ?_⟩
  · show drawPlayerSprite c4Atlas c4View 0 0 = _
    unfold drawPlayerSprite getAvatarSize
    simp [c4Atlas, c4View, c4Entry, truthyName, jsDim, jsOrStr, framesFor,
      jsBitOrZero]
    norm_num [Rat.floor_def', c4ImgA, c4ImgB]
  · simp [framesFor, c4Entry]
  · simp [c4ImgA, c4ImgB]

theorem drawPlayerSprite_atlas (atlas : String → Option AtlasEntry)
    (p : SpriteView) (cx cy : ℤ) (n : String) (entry : AtlasEntry)
    (hname : p.avatarName = some n) (hne : n ≠ "") (hatlas : atlas n = some entry) :
    drawPlayerSprite atlas p cx cy =
      match ((framesFor entry (resolvedDir p)).get? (spriteFrameIndex p).toNat).orElse
          (fun _ => (framesFor entry (resolvedDir p)).get? 0) with
      | none => DrawOp.nothing
      | some f =>
        if jsOrStr p.facing "south" = "west" then
          DrawOp.frame f true cx (-(Rat.floor ((getAvatarSize atlas p).1 / 2)))
            (cy - Rat.floor ((getAvatarSize atlas p).2 / 2))
            (getAvatarSize atlas p).1 (getAvatarSize atlas p).2
        else
          DrawOp.frame f false 0 (cx - Rat.floor ((getAvatarSize atlas p).1 / 2))
            (cy - Rat.floor ((getAvatarSize atlas p).2 / 2))
            (getAvatarSize atlas p).1 (getAvatarSize atlas p).2 := by
  have hcond : ¬(truthyName p.avatarName = false ∨
      atlas (p.avatarName.getD "") = none) := by
    rw [hname]
    simp [truthyName, hne, hatlas]
  unfold drawPlayerSprite
  rw [if_neg hcond, hname]
  simp only [Option.getD_some, hatlas]
  rfl

/-- Claim C4 (corrected, amended): for an atlas-backed entity the frame
index is clamped into the hardcoded `[0, 2]`; the frame at that index is
drawn when the resolved facing's sequence has one, otherwise the code falls
back to the sequence's first frame; an empty sequence draws nothing; and in
every case the drawn frame is a member of the sequence — selection never
indexes out of bounds and never signals an error. -/
theorem sprite_clamp_amended (atlas : String → Option AtlasEntry) (p : SpriteView)
    (cx cy : ℤ) (n : String) (entry : AtlasEntry)
    (hname : p.avatarName = some n) (hne : n ≠ "") (hatlas : atlas n = some entry) :
    (0 ≤ spriteFrameIndex p ∧ spriteFrameIndex p ≤ 2) ∧
    (framesFor entry (resolvedDir p) = [] →
      drawPlayerSprite atlas p cx cy = DrawOp.nothing) ∧
    (∀ img flip tx dx dy w h,
      drawPlayerSprite atlas p cx cy = DrawOp.frame img flip tx dx dy w h →
      img ∈ framesFor entry (resolvedDir p)) ∧
    (framesFor entry (resolvedDir p) ≠ [] →
      ∃ img,
        ((framesFor entry (resolvedDir p)).get? (spriteFrameIndex p).toNat = some img ∨
          ((framesFor entry (resolvedDir p)).length ≤ (spriteFrameIndex p).toNat ∧
            (framesFor entry (resolvedDir p)).get? 0 = some img)) ∧
        ∃ flip tx dx dy, drawPlayerSprite atlas p cx cy =
          DrawOp.frame img flip tx dx dy
            (getAvatarSize atlas p).1 (getAvatarSize atlas p).2) := by
  have hkey := drawPlayerSprite_atlas atlas p cx cy n entry hname hne hatlas
  refine ⟨⟨le_max_left _ _, max_le (by norm_num) (min_le_left _ _)⟩, ?_, ?_, ?_⟩
  · intro hempty
    rw [hkey, hempty]
    rfl
  · intro img flip tx dx dy w h hdraw
    rw [hkey] at hdraw
    cases hsel : ((framesFor entry (resolvedDir p)).get? (spriteFrameIndex p).toNat).orElse
        (fun _ => (framesFor entry (resolvedDir p)).get? 0) with
    | none =>
      rw [hsel] at hdraw
      exact absurd hdraw (by simp)
    | some f =>
      rw [hsel] at hdraw
      have hdraw2 : (if jsOrStr p.facing "south" = "west" then
          DrawOp.frame f true cx (-(Rat.floor ((getAvatarSize atlas p).1 / 2)))
            (cy - Rat.floor ((getAvatarSize atlas p).2 / 2))
            (getAvatarSize atlas p).1 (getAvatarSize atlas p).2
        else
          DrawOp.frame f false 0 (cx - Rat.floor ((getAvatarSize atlas p).1 / 2))
            (cy - Rat.floor ((getAvatarSize atlas p).2 / 2))
            (getAvatarSize atlas p).1 (getAvatarSize atlas p).2) =
          DrawOp.frame img flip tx dx dy w h := hdraw
      have himg : f = img := by
        by_cases hw : jsOrStr p.facing "south" = "west"
        · rw [if_pos hw] at hdraw2
          simp only [DrawOp.frame.injEq] at hdraw2
          exact hdraw2.1
        · rw [if_neg hw] at hdraw2
          simp only [DrawOp.frame.injEq] at hdraw2
          exact hdraw2.1
      subst himg
      cases hg : (framesFor entry (resolvedDir p)).get? (spriteFrameIndex p).toNat with
      | some g =>
        rw [hg] at hsel
        simp only [Option.orElse] at hsel
        injection hsel with hgf
        exact hgf ▸ List.get?_mem hg
      | none =>
        rw [hg] at hsel
        simp only [Option.orElse] at hsel
        exact List.get?_mem hsel
  · intro hne'
    cases hg : (framesFor entry (resolvedDir p)).get? (spriteFrameIndex p).toNat with
    | some f =>
      refine ⟨f, Or.inl rfl, ?_⟩
      rw [hkey, hg]
      by_cases hw : jsOrStr p.facing "south" = "west"
      · exact ⟨true, cx, -(Rat.floor ((getAvatarSize atlas p).1 / 2)),
          cy - Rat.floor ((getAvatarSize atlas p).2 / 2), by
            simp only [Option.orElse]
            rw [if_pos hw]⟩
      · exact ⟨false, 0, cx - Rat.floor ((getAvatarSize atlas p).1 / 2),
          cy - Rat.floor ((getAvatarSize atlas p).2 / 2), by
            simp only [Option.orElse]
            rw [if_neg hw]⟩
    | none =>
      obtain ⟨f0, hf0⟩ : ∃ f0, (framesFor entry (resolvedDir p)).get? 0 = some f0 := by
        cases hfs : framesFor entry (resolvedDir p) with
        | nil => exact absurd hfs hne'
        | cons a t => exact ⟨a, rfl⟩
      refine ⟨f0, Or.inr ⟨List.get?_eq_none.mp hg, hf0⟩, ?_⟩
      rw [hkey, hg]
      by_cases hw : jsOrStr p.facing "south" = "west"
      · exact ⟨true, cx, -(Rat.floor ((getAvatarSize atlas p).1 / 2)),
          cy - Rat.floor ((getAvatarSize atlas p).2 / 2), by
            simp only [Option.orElse, hf0]
            rw [if_pos hw]⟩
      · exact ⟨false, 0, cx - Rat.floor ((getAvatarSize atlas p).1 / 2),
          cy - Rat.floor ((getAvatarSize atlas p).2 / 2), by
            simp only [Option.orElse, hf0]
            rw [if_neg hw]⟩

/-- Witness for `sprite_clamp_amended`: the concrete two-frame atlas entity. -/
theorem sprite_clamp_amended_witness :
    c4Atlas "robot" = some c4Entry ∧
    (0 ≤ spriteFrameIndex c4View ∧ spriteFrameIndex c4View ≤ 2) ∧
    (∀ img flip tx dx dy w h,
      drawPlayerSprite c4Atlas c4View 0 0 = DrawOp.frame img flip tx dx dy w h →
      img ∈ framesFor c4Entry (resolvedDir c4View)) := by
  have h := sprite_clamp_amended c4Atlas c4View 0 0 "robot" c4Entry rfl
    (by decide) rfl
  exact ⟨rfl, h.1, h.2.2.1⟩

theorem orElse_get?_mem {fs : List Img} {i : Nat} {f : Img}
    (hsel : (fs.get? i).orElse (fun _ => fs.get? 0) = some f) : f ∈ fs := by
  cases hg : fs.get? i with
  | some g =>
    rw [hg] at hsel
    simp only [Option.orElse] at hsel
    injection hsel with h1
    exact h1 ▸ List.get?_mem hg
  | none =>
    rw [hg] at hsel
    simp only [Option.orElse] at hsel
    exact List.get?_mem hsel

/-- Claim C9 (confirmed): an atlas-backed entity facing west is drawn with
the east frame (selected by the same index rule — the same frame the same
entity would show facing east), mirrored: the draw uses the flip transform
and the covered horizontal screen interval is the reflection about the
entity's screen center `cx` of the interval the east-facing draw covers;
and atlas entries structurally store only north, south and east sequences —
`framesFor` yields `[]` for `"west"` on every entry. -/
theorem west_mirrors_east (atlas : String → Option AtlasEntry) (p : SpriteView)
    (cx cy : ℤ) (n : String) (entry : AtlasEntry)
    (hname : p.avatarName = some n) (hne : n ≠ "") (hatlas : atlas n = some entry)
    (hfacing : p.facing = some "west") :
    (∀ img flip tx dx dy w h,
      drawPlayerSprite atlas p cx cy = DrawOp.frame img flip tx dx dy w h →
      flip = true ∧ img ∈ entry.east ∧
      ∃ dx2 dy2, drawPlayerSprite atlas { p with facing := some "east" } cx cy =
        DrawOp.frame img false 0 dx2 dy2 w h) ∧
    coveredX (drawPlayerSprite atlas p cx cy) =
      Option.map (fun r : ℚ × ℚ => (2 * (cx : ℚ) - r.2, 2 * (cx : ℚ) - r.1))
        (coveredX (drawPlayerSprite atlas { p with facing := some "east" } cx cy)) ∧
    (∀ e : AtlasEntry, framesFor e "west" = []) := by
  have hnameE : ({ p with facing := some "east" } : SpriteView).avatarName = some n :=
    hname
  have hkeyW := drawPlayerSprite_atlas atlas p cx cy n entry hname hne hatlas
  have hkeyE := drawPlayerSprite_atlas atlas { p with facing := some "east" } cx cy
    n entry hnameE hne hatlas
  have hdirW : resolvedDir p = "east" := by
    simp [resolvedDir, jsOrStr, hfacing]
  have hdirE : resolvedDir { p with facing := some "east" } = "east" := by
    simp [resolvedDir, jsOrStr]
  have hWest : jsOrStr p.facing "south" = "west" := by
    simp [jsOrStr, hfacing]
  have hEast : ¬(jsOrStr ({ p with facing := some "east" } : SpriteView).facing
      "south" = "west") := by
    simp [jsOrStr]
  have hidx : spriteFrameIndex { p with facing := some "east" } =
      spriteFrameIndex p := rfl
  have hsize : getAvatarSize atlas { p with facing := some "east" } =
      getAvatarSize atlas p := rfl
  rw [hdirW] at hkeyW
  rw [hdirE, hidx, hsize] at hkeyE
  cases hsel : ((framesFor entry "east").get? (spriteFrameIndex p).toNat).orElse
      (fun _ => (framesFor entry "east").get? 0) with
  | none =>
    rw [hsel] at hkeyW hkeyE
    refine ⟨?_, ?_, ?_⟩
    · intro img flip tx dx dy w h hdraw
      rw [hkeyW] at hdraw
      exact absurd hdraw (by simp)
    · rw [hkeyW, hkeyE]
      rfl
    · intro e
      simp [framesFor]
  | some f =>
    rw [hsel] at hkeyW hkeyE
    have hkeyW2 : drawPlayerSprite atlas p cx cy =
        DrawOp.frame f true cx (-(Rat.floor ((getAvatarSize atlas p).1 / 2)))
          (cy - Rat.floor ((getAvatarSize atlas p).2 / 2))
          (getAvatarSize atlas p).1 (getAvatarSize atlas p).2 := by
      rw [hkeyW]
      show (if jsOrStr p.facing "south" = "west" then _ else _) = _
      rw [if_pos hWest]
    have hkeyE2 : drawPlayerSprite atlas { p with facing := some "east" } cx cy =
        DrawOp.frame f false 0 (cx - Rat.floor ((getAvatarSize atlas p).1 / 2))
          (cy - Rat.floor ((getAvatarSize atlas p).2 / 2))
          (getAvatarSize atlas p).1 (getAvatarSize atlas p).2 := by
      rw [hkeyE]
      show (if jsOrStr ({ p with facing := some "east" } : SpriteView).facing
          "south" = "west" then _ else _) = _
      rw [if_neg hEast]
    have hmemf : f ∈ entry.east := by
      have h1 := orElse_get?_mem hsel
      simpa [framesFor] using h1
    refine ⟨?_, ?_, ?_⟩
    · intro img flip tx dx dy w h hdraw
      rw [hkeyW2] at hdraw
      simp only [DrawOp.frame.injEq] at hdraw
      obtain ⟨rfl, rfl, rfl, rfl, rfl, rfl, rfl⟩ := hdraw
      exact ⟨rfl, hmemf, ⟨_, _, hkeyE2⟩⟩
    · rw [hkeyW2, hkeyE2]
      simp only [coveredX]
      norm_num
      constructor
      · ring
      · ring
    · intro e
      simp [framesFor]

/-- Witness for `west_mirrors_east`: the concrete west-facing entity over
the two-frame atlas. -/
theorem west_mirrors_east_witness :
    c4Atlas "robot" = some c4Entry ∧ c9View.facing = some "west" ∧
    coveredX (drawPlayerSprite c4Atlas c9View 0 0) =
      Option.map (fun r : ℚ × ℚ =>
          (2 * ((0 : ℤ) : ℚ) - r.2, 2 * ((0 : ℤ) : ℚ) - r.1))
        (coveredX (drawPlayerSprite c4Atlas
          { c9View with facing := some "east" } 0 0)) := by
  have h := west_mirrors_east c4Atlas c9View 0 0 "robot" c4Entry rfl
    (by decide) rfl rfl
  exact ⟨rfl, rfl, h.2.1⟩

end Client
